import Mathlib

set_option maxRecDepth 4096

/-!
Verification of the fractalia2d frame-graph / GPU-compute dispatch core.

The definitions below are a shallow embedding of the C++ sources under
`src/`:

* `src/src/vulkan/nodes/entity_compute_node.{h,cpp}` (movement compute node)
* `src/src/vulkan/nodes/physics_compute_node.{h,cpp}` (PBD physics compute node)
* `src/src/vulkan/nodes/entity_graphics_node.cpp` (graphics node)
* `src/src/vulkan/rendering/frame_graph.cpp` (frame-graph compile/execute)
* `src/src/vulkan/services/frame_state_manager.cpp` (per-slot fence tracking)

Machine integers from the C++ are modelled as `Nat`; every arithmetic step in
the embedded code (ceiling division, `std::min`, subtraction of a smaller
unsigned value from a larger one) stays far below `2^32` in the reachable
states considered here, and the source expressions are transcribed literally.
-/

namespace Fractalia

/-- Modelled from the spec: the constant `THREADS_PER_WORKGROUP` lives in
`src/vulkan/core/vulkan_constants.h`, which is not among the provided sources
(the compute nodes only reference it). Spec section 8 ("entity count = 131072
(max), threads-per-workgroup = 256 → total workgroups = 512") fixes its value
to 256. -/
def THREADS_PER_WORKGROUP : Nat := 256

namespace SoftBodyConstants

/-- `SoftBodyConstants::kParticlesPerBody` from `src/src/ecs/gpu/soft_body_constants.h`. -/
def kParticlesPerBody : Nat := 3

/-- `SoftBodyConstants::kConstraintsPerBody` from `src/src/ecs/gpu/soft_body_constants.h`. -/
def kConstraintsPerBody : Nat := 3

end SoftBodyConstants

/-- The anonymous-namespace `DispatchParams` struct shared by
`entity_compute_node.cpp` and `physics_compute_node.cpp`. -/
structure DispatchParams where
  totalWorkgroups : Nat
  maxWorkgroupsPerChunk : Nat
  useChunking : Bool
deriving Repr, DecidableEq

/-- `calculateDispatchParams` (identical in both compute-node translation
units): `totalWorkgroups = (elementCount + THREADS_PER_WORKGROUP - 1) /
THREADS_PER_WORKGROUP`, chunking is used when the total exceeds the ceiling or
when chunking is forced. -/
def calculateDispatchParams (elementCount maxWorkgroups : Nat) (forceChunking : Bool) :
    DispatchParams :=
  ⟨(elementCount + THREADS_PER_WORKGROUP - 1) / THREADS_PER_WORKGROUP,
   maxWorkgroups,
   decide (maxWorkgroups < (elementCount + THREADS_PER_WORKGROUP - 1) / THREADS_PER_WORKGROUP)
     || forceChunking⟩

/-- One chunk issued by `executeChunkedDispatch`: the `elementOffset` pushed
for the chunk and the workgroup count passed to `vkCmdDispatch`. -/
structure Chunk where
  elementOffset : Nat
  workgroups : Nat
deriving Repr, DecidableEq

/-- The `while (processedWorkgroups < totalWorkgroups)` loop of
`executeChunkedDispatch`, textually identical in
`PhysicsComputeNode::executeChunkedDispatch` and
`EntityComputeNode::executeChunkedDispatch`.  Each iteration dispatches
`min(maxWorkgroupsPerChunk, totalWorkgroups - processedWorkgroups)` workgroups
at element offset `processedWorkgroups * THREADS_PER_WORKGROUP`, breaking early
when `elementCount <= baseElementOffset`.  The C++ loop has no fuel; `none`
models the loop still running after `fuel` iterations, so a result that is
`none` for every fuel is a non-terminating loop. -/
def chunkLoopAux (totalWorkgroups maxWorkgroupsPerChunk elementCount : Nat) :
    Nat → Nat → Option (List Chunk)
  | 0, processedWorkgroups =>
    if processedWorkgroups < totalWorkgroups then none else some []
  | fuel + 1, processedWorkgroups =>
    if processedWorkgroups < totalWorkgroups then
      let currentChunkSize := min maxWorkgroupsPerChunk (totalWorkgroups - processedWorkgroups)
      let baseElementOffset := processedWorkgroups * THREADS_PER_WORKGROUP
      if elementCount ≤ baseElementOffset then some []
      else
        (chunkLoopAux totalWorkgroups maxWorkgroupsPerChunk elementCount fuel
          (processedWorkgroups + currentChunkSize)).map
          (fun rest => ⟨baseElementOffset, currentChunkSize⟩ :: rest)
    else some []

/-- `PhysicsComputeNode::executeChunkedDispatch`, projected to the sequence of
chunks it dispatches (offset pushed, workgroups dispatched), starting from
`processedWorkgroups = 0`. -/
def PhysicsComputeNode.executeChunkedDispatchChunks
    (totalWorkgroups maxWorkgroupsPerChunk elementCount fuel : Nat) : Option (List Chunk) :=
  chunkLoopAux totalWorkgroups maxWorkgroupsPerChunk elementCount fuel 0

/-- `EntityComputeNode::executeChunkedDispatch`, projected to the sequence of
chunks it dispatches; the loop body is identical to the physics node's. -/
def EntityComputeNode.executeChunkedDispatchChunks
    (totalWorkgroups maxWorkgroupsPerChunk entityCount fuel : Nat) : Option (List Chunk) :=
  chunkLoopAux totalWorkgroups maxWorkgroupsPerChunk entityCount fuel 0

/-- The physics node's chunked-dispatch loop terminates on the given inputs:
some finite number of iterations suffices. -/
def PhysicsComputeNode.chunkedDispatchTerminates
    (totalWorkgroups maxWorkgroupsPerChunk elementCount : Nat) : Prop :=
  ∃ fuel, (PhysicsComputeNode.executeChunkedDispatchChunks
    totalWorkgroups maxWorkgroupsPerChunk elementCount fuel).isSome = true

/-- The movement node's chunked-dispatch loop terminates on the given inputs. -/
def EntityComputeNode.chunkedDispatchTerminates
    (totalWorkgroups maxWorkgroupsPerChunk entityCount : Nat) : Prop :=
  ∃ fuel, (EntityComputeNode.executeChunkedDispatchChunks
    totalWorkgroups maxWorkgroupsPerChunk entityCount fuel).isSome = true

/-- A chunk list is contiguous from workgroup index `processed`: each chunk's
`elementOffset` is exactly `processed * THREADS_PER_WORKGROUP` for the running
workgroup count, so consecutive chunks tile the workgroup range without gap or
overlap. -/
def chunksContiguousB : List Chunk → Nat → Bool
  | [], _ => true
  | ch :: rest, processed =>
    decide (ch.elementOffset = processed * THREADS_PER_WORKGROUP) &&
      chunksContiguousB rest (processed + ch.workgroups)

lemma chunkLoopAux_isSome (maxChunk elementCount totalWorkgroups : Nat) (hC : 0 < maxChunk) :
    ∀ fuel processed, totalWorkgroups - processed ≤ fuel →
      (chunkLoopAux totalWorkgroups maxChunk elementCount fuel processed).isSome = true := by
  intro fuel
  induction fuel with
  | zero =>
    intro processed hfuel
    have hge : ¬ processed < totalWorkgroups := by omega
    simp [chunkLoopAux, hge]
  | succ fuel ih =>
    intro processed hfuel
    by_cases hlt : processed < totalWorkgroups
    · rw [chunkLoopAux, if_pos hlt]
      by_cases hbrk : elementCount ≤ processed * THREADS_PER_WORKGROUP
      · simp [hbrk]
      · have hrec := ih (processed + min maxChunk (totalWorkgroups - processed)) (by omega)
        simp only [if_neg hbrk]
        simp [Option.isSome_map, hrec]
    · simp [chunkLoopAux, hlt]

lemma chunkLoopAux_partition (maxChunk elementCount totalWorkgroups : Nat) (hC : 0 < maxChunk)
    (hbreak : ∀ p, p < totalWorkgroups → p * THREADS_PER_WORKGROUP < elementCount) :
    ∀ fuel processed, totalWorkgroups - processed ≤ fuel →
      ∃ l, chunkLoopAux totalWorkgroups maxChunk elementCount fuel processed = some l ∧
        (l.map Chunk.workgroups).sum = totalWorkgroups - processed ∧
        (∀ ch ∈ l, 0 < ch.workgroups ∧ ch.workgroups ≤ maxChunk) ∧
        chunksContiguousB l processed = true := by
  intro fuel
  induction fuel with
  | zero =>
    intro processed hfuel
    have hge : ¬ processed < totalWorkgroups := by omega
    refine ⟨[], by simp [chunkLoopAux, hge], by simp; omega, by simp, by simp [chunksContiguousB]⟩
  | succ fuel ih =>
    intro processed hfuel
    by_cases hlt : processed < totalWorkgroups
    · have hoff : processed * THREADS_PER_WORKGROUP < elementCount := hbreak processed hlt
      have hsize : 0 < min maxChunk (totalWorkgroups - processed) := by omega
      obtain ⟨l, hl, hsum, hbnd, hcont⟩ :=
        ih (processed + min maxChunk (totalWorkgroups - processed)) (by omega)
      refine ⟨⟨processed * THREADS_PER_WORKGROUP, min maxChunk (totalWorkgroups - processed)⟩ :: l,
        ?_, ?_, ?_, ?_⟩
      · rw [chunkLoopAux, if_pos hlt, if_neg (by omega), hl]
        rfl
      · simp only [List.map_cons, List.sum_cons, hsum]
        omega
      · intro ch hch
        rcases List.mem_cons.mp hch with h | h
        · subst h
          exact ⟨hsize, Nat.min_le_left _ _⟩
        · exact hbnd ch h
      · simp [chunksContiguousB, hcont]
    · refine ⟨[], by simp [chunkLoopAux, hlt], by simp; omega, by simp, by simp [chunksContiguousB]⟩

lemma totalWorkgroups_break_free (elementCount : Nat) :
    ∀ p, p < (elementCount + THREADS_PER_WORKGROUP - 1) / THREADS_PER_WORKGROUP →
      p * THREADS_PER_WORKGROUP < elementCount := by
  intro p hp
  rw [show THREADS_PER_WORKGROUP = 256 from rfl] at hp ⊢
  have hle : p + 1 ≤ (elementCount + 256 - 1) / 256 := hp
  have := (Nat.le_div_iff_mul_le (show 0 < 256 by decide)).mp hle
  omega

/-- C1. For every element count `E > 0` and per-chunk ceiling `C > 0`, the
chunked dispatch loop of both compute nodes (invoked with `totalWorkgroups =
ceil(E / THREADS_PER_WORKGROUP)`, as `execute`/`dispatchPass` do) terminates
and issues chunks whose `elementOffset` values
(`processedWorkgroups * THREADS_PER_WORKGROUP` per chunk) form a contiguous,
non-overlapping partition of the workgroup range: the per-chunk workgroup
counts are positive, each is at most `C`, they sum to exactly
`ceil(E / THREADS_PER_WORKGROUP)`, and consecutive offsets advance by exactly
the previous chunk's workgroup count times `THREADS_PER_WORKGROUP`, so no
workgroup index is covered twice or skipped. -/
theorem chunked_dispatch_covers_range (E C : Nat) (hE : 0 < E) (hC : 0 < C) :
    ∃ l,
      PhysicsComputeNode.executeChunkedDispatchChunks
        (calculateDispatchParams E C true).totalWorkgroups C E
        (calculateDispatchParams E C true).totalWorkgroups = some l ∧
      EntityComputeNode.executeChunkedDispatchChunks
        (calculateDispatchParams E C true).totalWorkgroups C E
        (calculateDispatchParams E C true).totalWorkgroups = some l ∧
      (l.map Chunk.workgroups).sum = (calculateDispatchParams E C true).totalWorkgroups ∧
      (∀ ch ∈ l, 0 < ch.workgroups ∧ ch.workgroups ≤ C) ∧
      chunksContiguousB l 0 = true := by
  obtain ⟨l, hl, hsum, hbnd, hcont⟩ :=
    chunkLoopAux_partition C E ((E + THREADS_PER_WORKGROUP - 1) / THREADS_PER_WORKGROUP) hC
      (totalWorkgroups_break_free E)
      ((E + THREADS_PER_WORKGROUP - 1) / THREADS_PER_WORKGROUP) 0 (Nat.sub_le _ _)
  exact ⟨l, hl, hl, by simpa using hsum, hbnd, hcont⟩

/-- Witness for C1 at `E = 131072`, `C = 100`. -/
theorem chunked_dispatch_covers_range_witness :
    (0 : Nat) < 131072 ∧ (0 : Nat) < 100 ∧
      (∃ l,
        PhysicsComputeNode.executeChunkedDispatchChunks
          (calculateDispatchParams 131072 100 true).totalWorkgroups 100 131072
          (calculateDispatchParams 131072 100 true).totalWorkgroups = some l ∧
        EntityComputeNode.executeChunkedDispatchChunks
          (calculateDispatchParams 131072 100 true).totalWorkgroups 100 131072
          (calculateDispatchParams 131072 100 true).totalWorkgroups = some l ∧
        (l.map Chunk.workgroups).sum = (calculateDispatchParams 131072 100 true).totalWorkgroups ∧
        (∀ ch ∈ l, 0 < ch.workgroups ∧ ch.workgroups ≤ 100) ∧
        chunksContiguousB l 0 = true) :=
  ⟨by decide, by decide, chunked_dispatch_covers_range 131072 100 (by decide) (by decide)⟩

lemma chunkLoopAux_zero_ceiling : ∀ fuel, chunkLoopAux 1 0 1 fuel 0 = none := by
  intro fuel
  induction fuel with
  | zero => simp [chunkLoopAux]
  | succ fuel ih =>
    rw [chunkLoopAux]
    simp only [show (0 : Nat) < 1 from by decide, if_pos]
    rw [if_neg (by simp [THREADS_PER_WORKGROUP])]
    simp [ih]

/-- C10 counterexample. The claim quantifies over every `maxWorkgroupsPerChunk`
value reachable through the adaptive clamping, explicitly including a
timeout-detector `recommendedMaxWorkgroups` of 0 propagated by `std::min`.
With `totalWorkgroups = 1`, `maxWorkgroupsPerChunk = 0`, `elementCount = 1`
(a positive element count, as every caller guarantees) the loop of both nodes
never terminates: the chunk size is `min(0, 1) = 0`, `processedWorkgroups`
never advances, and the element-count break never fires since the offset stays
0 < elementCount. -/
theorem chunk_loop_diverges_at_zero_ceiling :
    ¬ PhysicsComputeNode.chunkedDispatchTerminates 1 0 1 ∧
    ¬ EntityComputeNode.chunkedDispatchTerminates 1 0 1 := by
  constructor
  · rintro ⟨fuel, h⟩
    rw [PhysicsComputeNode.executeChunkedDispatchChunks, chunkLoopAux_zero_ceiling] at h
    simp at h
  · rintro ⟨fuel, h⟩
    rw [EntityComputeNode.executeChunkedDispatchChunks, chunkLoopAux_zero_ceiling] at h
    simp at h

/-- C10 (amended). For every `totalWorkgroups` and every per-chunk ceiling
`maxWorkgroupsPerChunk ≥ 1`, the `while` loop in `executeChunkedDispatch` of
both compute nodes terminates (within `totalWorkgroups` iterations: each
iteration strictly increases `processedWorkgroups` or exits via the
element-count break); for a ceiling of 0 with positive remaining work the loop
does not terminate (see the counterexample). -/
theorem chunk_loop_terminates_pos_ceiling (totalWorkgroups maxChunk elementCount : Nat)
    (hC : 0 < maxChunk) :
    PhysicsComputeNode.chunkedDispatchTerminates totalWorkgroups maxChunk elementCount ∧
    EntityComputeNode.chunkedDispatchTerminates totalWorkgroups maxChunk elementCount :=
  ⟨⟨totalWorkgroups,
     chunkLoopAux_isSome maxChunk elementCount totalWorkgroups hC totalWorkgroups 0 (by omega)⟩,
   ⟨totalWorkgroups,
     chunkLoopAux_isSome maxChunk elementCount totalWorkgroups hC totalWorkgroups 0 (by omega)⟩⟩

/-- Witness for C10 at `totalWorkgroups = 513`, ceiling `512`, `elementCount =
131072`. -/
theorem chunk_loop_terminates_pos_ceiling_witness :
    (0 : Nat) < 512 ∧
      (PhysicsComputeNode.chunkedDispatchTerminates 513 512 131072 ∧
       EntityComputeNode.chunkedDispatchTerminates 513 512 131072) :=
  ⟨by decide, chunk_loop_terminates_pos_ceiling 513 512 131072 (by decide)⟩

/-- Destination of a `vkCmdPipelineBarrier` emitted by the compute nodes,
abbreviated to the (dstStageMask, dstAccessMask) pairs that actually occur:
compute shader with shader read|write, vertex-input with
vertex-attribute-read, and vertex shader with shader-read. -/
inductive BarrierDst where
  | computeShaderReadWrite
  | vertexInputAttributeRead
  | vertexShaderRead
deriving Repr, DecidableEq

/-- Command-buffer commands recorded by the compute nodes, projected to the
fields the claims are about. -/
inductive Cmd where
  | bindPipeline
  | bindDescriptorSets
  | pushConstants (elementOffset : Nat)
  | dispatch (workgroups : Nat)
  | barrier (dst : BarrierDst)
deriving Repr, DecidableEq

/-- Commands recorded for a chunk list by `executeChunkedDispatch`: per chunk,
push constants with the chunk's offset, `vkCmdDispatch` of its workgroups, and
an inter-chunk compute→compute barrier when `processedWorkgroups +
currentChunkSize < totalWorkgroups`.  (In the C++ the emission is interleaved
with the offset computation of `chunkLoopAux`; here it replays the same
running `processedWorkgroups` counter over the chunk list.) -/
def chunkCmdsGo (totalWorkgroups : Nat) : List Chunk → Nat → List Cmd
  | [], _ => []
  | ch :: rest, processed =>
    Cmd.pushConstants ch.elementOffset :: Cmd.dispatch ch.workgroups ::
      ((if processed + ch.workgroups < totalWorkgroups then
          [Cmd.barrier BarrierDst.computeShaderReadWrite] else []) ++
        chunkCmdsGo totalWorkgroups rest (processed + ch.workgroups))

/-- `GPUTimeoutDetector::RecoveryRecommendation` as consumed by the compute
nodes (the detector itself is an external collaborator; only the fields the
nodes read are modelled). -/
structure RecoveryRecommendation where
  shouldReduceWorkload : Bool
  recommendedMaxWorkgroups : Nat
  shouldSplitDispatches : Bool
deriving Repr, DecidableEq

/-- State of the optional timeout-detector collaborator at the time of one
`execute` call. -/
structure DetectorState where
  present : Bool
  recommendation : RecoveryRecommendation
  gpuHealthy : Bool
deriving Repr, DecidableEq

/-- The adaptive workload block shared verbatim by both compute nodes'
`execute`: starting from the node's `adaptiveMaxWorkgroups` and
`forceChunkedDispatch`, optionally lower the ceiling to the detector's
recommendation, force chunking, and clamp the ceiling to 512 when the GPU is
reported unhealthy.  Returns (maxWorkgroupsPerDispatch, shouldForceChunking). -/
def adjustWorkload (adaptiveMaxWorkgroups : Nat) (forceChunkedDispatch : Bool)
    (d : DetectorState) : Nat × Bool :=
  if d.present then
    let m1 := if d.recommendation.shouldReduceWorkload then
        min adaptiveMaxWorkgroups d.recommendation.recommendedMaxWorkgroups
      else adaptiveMaxWorkgroups
    let f1 := forceChunkedDispatch || d.recommendation.shouldSplitDispatches
    (if d.gpuHealthy then m1 else min m1 512, f1)
  else (adaptiveMaxWorkgroups, forceChunkedDispatch)

/-- The integer fields of `EntityComputeNode::ComputePushConstants`
(`time`/`deltaTime` are floats written only by `prepareFrame`, outside the
embedded `execute` path). -/
structure EntityPush where
  entityCount : Nat
  frame : Nat
  entityOffset : Nat
deriving Repr, DecidableEq

/-- `pushConstants.frame = frameGraph.getGlobalFrameCounter()`. -/
def EntityPush.withFrame (p : EntityPush) (f : Nat) : EntityPush :=
  ⟨p.entityCount, f, p.entityOffset⟩

/-- `pushConstants.entityCount = entityCount`. -/
def EntityPush.withEntityCount (p : EntityPush) (c : Nat) : EntityPush :=
  ⟨c, p.frame, p.entityOffset⟩

/-- Inputs of one `EntityComputeNode::execute` call that come from
collaborators: null checks, entity count, frame counter, pipeline/descriptor/
context resolution, detector state, and the node's adaptive fields. -/
structure EntityExecEnv where
  depsOk : Bool
  entityCount : Nat
  globalFrame : Nat
  pipelineOk : Bool
  descriptorOk : Bool
  contextOk : Bool
  detector : DetectorState
  adaptiveMaxWorkgroups : Nat
  forceChunkedDispatch : Bool
deriving Repr, DecidableEq

/-- Result of one `EntityComputeNode::execute` call: whether the
workgroup-over-limit error branch was taken, the commands recorded (`none`
models a non-terminating chunk loop), and the node's push-constant state on
return. -/
structure EntityExecOut where
  overLimitError : Bool
  cmds : Option (List Cmd)
  push : EntityPush
deriving Repr, DecidableEq

/-- `EntityComputeNode::execute` (entity_compute_node.cpp lines 110-232),
with each early-`return` branch producing the commands recorded so far. -/
def EntityComputeNode.executeModel (env : EntityExecEnv) (push : EntityPush) (fuel : Nat) :
    EntityExecOut :=
  if env.depsOk = false then ⟨false, some [], push⟩
  else if env.entityCount = 0 then ⟨false, some [], push⟩
  else
    let push1 := push.withFrame env.globalFrame
    if env.pipelineOk = false then ⟨false, some [], push1⟩
    else if env.descriptorOk = false then ⟨false, some [], push1⟩
    else
      let push2 := push1.withEntityCount env.entityCount
      let mf := adjustWorkload env.adaptiveMaxWorkgroups env.forceChunkedDispatch env.detector
      let params := calculateDispatchParams env.entityCount mf.1 mf.2
      if 65535 < params.totalWorkgroups then ⟨true, some [], push2⟩
      else if env.contextOk = false then ⟨false, some [], push2⟩
      else if params.useChunking = false then
        ⟨false,
         some [Cmd.bindPipeline, Cmd.bindDescriptorSets,
               Cmd.pushConstants push2.entityOffset, Cmd.dispatch params.totalWorkgroups,
               Cmd.barrier BarrierDst.vertexShaderRead],
         push2⟩
      else
        ⟨false,
         (chunkLoopAux params.totalWorkgroups params.maxWorkgroupsPerChunk env.entityCount
             fuel 0).map
           (fun l => Cmd.bindPipeline :: Cmd.bindDescriptorSets ::
             (chunkCmdsGo params.totalWorkgroups l 0 ++ [Cmd.barrier BarrierDst.vertexShaderRead])),
         push2⟩

/-- Barrier destination chosen by the physics node for the trailing barrier of
a pass: `finalToGraphics ? VERTEX_INPUT/vertex-attribute-read :
COMPUTE_SHADER/shader-read|write` (physics_compute_node.cpp lines 219-230 and
310-320). -/
def physBarrierDst (finalToGraphics : Bool) : BarrierDst :=
  if finalToGraphics then BarrierDst.vertexInputAttributeRead
  else BarrierDst.computeShaderReadWrite

/-- Result of one `dispatchPass` invocation in
`PhysicsComputeNode::execute`. -/
structure PassOut where
  overLimitError : Bool
  cmds : Option (List Cmd)
deriving Repr, DecidableEq

/-- The `dispatchPass` closure of `PhysicsComputeNode::execute`
(physics_compute_node.cpp lines 191-236): skip empty passes, refuse totals
over the Vulkan limit 65535, otherwise record either a single
push-constants/dispatch/barrier triple or a chunked dispatch. -/
def PhysicsComputeNode.dispatchPassCmds (elementCount maxWorkgroupsPerDispatch : Nat)
    (shouldForceChunking finalToGraphics : Bool) (fuel : Nat) : PassOut :=
  if elementCount = 0 then ⟨false, some []⟩
  else
    let params := calculateDispatchParams elementCount maxWorkgroupsPerDispatch
      shouldForceChunking
    if 65535 < params.totalWorkgroups then ⟨true, some []⟩
    else if params.useChunking = false then
      ⟨false, some [Cmd.pushConstants 0, Cmd.dispatch params.totalWorkgroups,
        Cmd.barrier (physBarrierDst finalToGraphics)]⟩
    else
      ⟨false,
       (chunkLoopAux params.totalWorkgroups params.maxWorkgroupsPerChunk elementCount
           fuel 0).map
         (fun l => chunkCmdsGo params.totalWorkgroups l 0 ++
           [Cmd.barrier (physBarrierDst finalToGraphics)])⟩

/-- One named pass as invoked by `PhysicsComputeNode::execute`: the name and
`mode` pushed to the shader, the element count dispatched over, and whether
its trailing barrier targets the graphics vertex-input stage. -/
structure PassDesc where
  name : String
  mode : Nat
  elementCount : Nat
  finalToGraphics : Bool
deriving Repr, DecidableEq

/-- The sequence of `dispatchPass` calls made by `PhysicsComputeNode::execute`
(physics_compute_node.cpp lines 238-249): Integrate, Clear Spatial (fixed
4096 cells), Build Spatial, then `solverIterations = 8` iterations of
SolveDistance/SolveArea/Collide, then Finalize — the only call with
`finalToGraphics = true`. -/
def PhysicsComputeNode.passSchedule (bodyCount : Nat) : List PassDesc :=
  let particleCount := bodyCount * SoftBodyConstants.kParticlesPerBody
  let constraintCount := bodyCount * SoftBodyConstants.kConstraintsPerBody
  [⟨"PBD_Integrate", 0, particleCount, false⟩,
   ⟨"PBD_ClearSpatial", 1, 4096, false⟩,
   ⟨"PBD_BuildSpatial", 2, particleCount, false⟩] ++
  (List.replicate 8
    [⟨"PBD_SolveDistance", 3, constraintCount, false⟩,
     ⟨"PBD_SolveArea", 4, bodyCount, false⟩,
     ⟨"PBD_Collide", 5, particleCount, false⟩]).flatten ++
  [⟨"PBD_Finalize", 6, particleCount, true⟩]

/-- The integer fields of the physics node's push-constant state as assigned
by `PhysicsComputeNode::execute` (`time`/`deltaTime` are floats written only
by `prepareFrame`). -/
structure PhysicsPush where
  bodyCount : Nat
  particleCount : Nat
  constraintCount : Nat
  frame : Nat
  elementOffset : Nat
  mode : Nat
deriving Repr, DecidableEq

/-- `pushConstants.frame = frameGraph.getGlobalFrameCounter()`. -/
def PhysicsPush.withFrame (p : PhysicsPush) (f : Nat) : PhysicsPush :=
  ⟨p.bodyCount, p.particleCount, p.constraintCount, f, p.elementOffset, p.mode⟩

/-- The three count assignments of physics_compute_node.cpp lines 146-148. -/
def PhysicsPush.withCounts (p : PhysicsPush) (b pc cc : Nat) : PhysicsPush :=
  ⟨b, pc, cc, p.frame, p.elementOffset, p.mode⟩

/-- `pushConstants.mode = mode; pushConstants.elementOffset = 0` at the start
of each non-empty `dispatchPass`. -/
def PhysicsPush.withModeOffset (p : PhysicsPush) (m off : Nat) : PhysicsPush :=
  ⟨p.bodyCount, p.particleCount, p.constraintCount, p.frame, off, m⟩

/-- Collaborator inputs of one `PhysicsComputeNode::execute` call. -/
structure PhysicsExecEnv where
  depsOk : Bool
  bodyCount : Nat
  globalFrame : Nat
  pipelineOk : Bool
  descriptorOk : Bool
  contextOk : Bool
  detector : DetectorState
  adaptiveMaxWorkgroups : Nat
  forceChunkedDispatch : Bool
deriving Repr, DecidableEq

/-- Result of one `PhysicsComputeNode::execute` call. -/
structure PhysicsExecOut where
  cmds : Option (List Cmd)
  push : PhysicsPush
deriving Repr, DecidableEq

/-- `PhysicsComputeNode::execute` (physics_compute_node.cpp lines 106-250):
guards, push-constant updates, the adaptive-workload block, pipeline and
descriptor binding, then the pass schedule where each non-empty pass sets
`mode`/`elementOffset` and records its commands via `dispatchPass`. -/
def PhysicsComputeNode.executeModel (env : PhysicsExecEnv) (push : PhysicsPush) (fuel : Nat) :
    PhysicsExecOut :=
  if env.depsOk = false then ⟨some [], push⟩
  else if env.bodyCount = 0 then ⟨some [], push⟩
  else
    let push1 := push.withFrame env.globalFrame
    if env.pipelineOk = false then ⟨some [], push1⟩
    else if env.descriptorOk = false then ⟨some [], push1⟩
    else
      let push2 := push1.withCounts env.bodyCount
        (env.bodyCount * SoftBodyConstants.kParticlesPerBody)
        (env.bodyCount * SoftBodyConstants.kConstraintsPerBody)
      let mf := adjustWorkload env.adaptiveMaxWorkgroups env.forceChunkedDispatch env.detector
      if env.contextOk = false then ⟨some [], push2⟩
      else
        let fin := (PhysicsComputeNode.passSchedule env.bodyCount).foldl
          (fun acc p =>
            match acc.1 with
            | none => acc
            | some cs =>
              if p.elementCount = 0 then acc
              else
                let pushNext := acc.2.withModeOffset p.mode 0
                match (PhysicsComputeNode.dispatchPassCmds p.elementCount mf.1 mf.2
                    p.finalToGraphics fuel).cmds with
                | none => (none, pushNext)
                | some cs2 => (some (cs ++ cs2), pushNext))
          ((some [Cmd.bindPipeline, Cmd.bindDescriptorSets] : Option (List Cmd)), push2)
        ⟨fin.1, fin.2⟩

/-- C2. For every element count whose total workgroup count
`ceil(elementCount / THREADS_PER_WORKGROUP)` exceeds 65535 (the count is
unaffected by the adaptive ceiling adjustment, which only changes the
per-chunk ceiling and the chunking flag), the movement node's `execute`
returns through the error branch with no pipeline bind and no `vkCmdDispatch`
recorded, and likewise each `dispatchPass` of the physics node records zero
commands and takes its error branch. -/
theorem workgroup_limit_guard_refuses_dispatch :
    (∀ (env : EntityExecEnv) (push : EntityPush) (fuel : Nat),
      env.depsOk = true → env.pipelineOk = true → env.descriptorOk = true →
      65535 < (env.entityCount + THREADS_PER_WORKGROUP - 1) / THREADS_PER_WORKGROUP →
      EntityComputeNode.executeModel env push fuel =
        ⟨true, some [], (push.withFrame env.globalFrame).withEntityCount env.entityCount⟩) ∧
    (∀ (elementCount maxWorkgroupsPerDispatch : Nat)
        (shouldForceChunking finalToGraphics : Bool) (fuel : Nat),
      65535 < (elementCount + THREADS_PER_WORKGROUP - 1) / THREADS_PER_WORKGROUP →
      PhysicsComputeNode.dispatchPassCmds elementCount maxWorkgroupsPerDispatch
        shouldForceChunking finalToGraphics fuel = ⟨true, some []⟩) := by
  constructor
  · intro env push fuel hdeps hpipe hdesc hlim
    have hne : ¬ env.entityCount = 0 := by
      intro h0
      rw [h0] at hlim
      norm_num [THREADS_PER_WORKGROUP] at hlim
    simp [EntityComputeNode.executeModel, hdeps, hpipe, hdesc, hne,
      calculateDispatchParams, hlim]
  · intro elementCount maxW force fin fuel hlim
    have hne : ¬ elementCount = 0 := by
      intro h0
      rw [h0] at hlim
      norm_num [THREADS_PER_WORKGROUP] at hlim
    simp [PhysicsComputeNode.dispatchPassCmds, hne, calculateDispatchParams, hlim]

/-- Witness for C2: entity count 16777216 yields 65536 workgroups. -/
theorem workgroup_limit_guard_refuses_dispatch_witness :
    EntityComputeNode.executeModel
        ⟨true, 16777216, 9, true, true, true, ⟨true, ⟨true, 0, true⟩, false⟩, 1024, true⟩
        ⟨0, 0, 0⟩ 3 = ⟨true, some [], ⟨16777216, 9, 0⟩⟩ ∧
    PhysicsComputeNode.dispatchPassCmds 16777216 1024 true true 3 = ⟨true, some []⟩ :=
  ⟨workgroup_limit_guard_refuses_dispatch.1
      ⟨true, 16777216, 9, true, true, true, ⟨true, ⟨true, 0, true⟩, false⟩, 1024, true⟩
      ⟨0, 0, 0⟩ 3 rfl rfl rfl (by decide),
   workgroup_limit_guard_refuses_dispatch.2 16777216 1024 true true 3 (by decide)⟩

lemma dispatchPassCmds_getLast (elementCount maxW : Nat) (force fin : Bool) (fuel : Nat)
    (l : List Cmd) (hE : 0 < elementCount)
    (hlim : (elementCount + THREADS_PER_WORKGROUP - 1) / THREADS_PER_WORKGROUP ≤ 65535)
    (h : (PhysicsComputeNode.dispatchPassCmds elementCount maxW force fin fuel).cmds = some l) :
    l.getLast? = some (Cmd.barrier (physBarrierDst fin)) := by
  rw [PhysicsComputeNode.dispatchPassCmds] at h
  simp only [calculateDispatchParams] at h
  split_ifs at h with h0 hover huse
  · exact absurd h0 (Nat.pos_iff_ne_zero.mp hE)
  · exact absurd hover (Nat.not_lt.mpr hlim)
  · dsimp only at h
    cases h
    rfl
  · dsimp only at h
    obtain ⟨cl, -, rfl⟩ := Option.map_eq_some'.mp h
    exact List.getLast?_concat _

/-- C3. For every body count `B > 0`, `PhysicsComputeNode::execute` invokes
its passes in exactly the order Integrate (over `B*3` particles), Clear
Spatial (over exactly 4096 elements regardless of `B`), Build Spatial (over
particles), then exactly 8 solver iterations of Solve Distance (over `B*3`
constraints), Solve Area (over `B` bodies) and Collide (over particles), then
Finalize (over particles); every pass in the schedule has a positive element
count (so none is skipped by the empty-pass guard); the Finalize pass is the
only one flagged `finalToGraphics`; and a pass's trailing barrier targets
`VERTEX_INPUT` with vertex-attribute-read exactly when that flag is set,
every other pass's trailing barrier targeting the compute stage with shader
read/write access. -/
theorem physics_pass_sequence_and_barriers (B : Nat) (hB : 0 < B) :
    PhysicsComputeNode.passSchedule B =
      [⟨"PBD_Integrate", 0, B * 3, false⟩,
       ⟨"PBD_ClearSpatial", 1, 4096, false⟩,
       ⟨"PBD_BuildSpatial", 2, B * 3, false⟩,
       ⟨"PBD_SolveDistance", 3, B * 3, false⟩, ⟨"PBD_SolveArea", 4, B, false⟩,
       ⟨"PBD_Collide", 5, B * 3, false⟩,
       ⟨"PBD_SolveDistance", 3, B * 3, false⟩, ⟨"PBD_SolveArea", 4, B, false⟩,
       ⟨"PBD_Collide", 5, B * 3, false⟩,
       ⟨"PBD_SolveDistance", 3, B * 3, false⟩, ⟨"PBD_SolveArea", 4, B, false⟩,
       ⟨"PBD_Collide", 5, B * 3, false⟩,
       ⟨"PBD_SolveDistance", 3, B * 3, false⟩, ⟨"PBD_SolveArea", 4, B, false⟩,
       ⟨"PBD_Collide", 5, B * 3, false⟩,
       ⟨"PBD_SolveDistance", 3, B * 3, false⟩, ⟨"PBD_SolveArea", 4, B, false⟩,
       ⟨"PBD_Collide", 5, B * 3, false⟩,
       ⟨"PBD_SolveDistance", 3, B * 3, false⟩, ⟨"PBD_SolveArea", 4, B, false⟩,
       ⟨"PBD_Collide", 5, B * 3, false⟩,
       ⟨"PBD_SolveDistance", 3, B * 3, false⟩, ⟨"PBD_SolveArea", 4, B, false⟩,
       ⟨"PBD_Collide", 5, B * 3, false⟩,
       ⟨"PBD_SolveDistance", 3, B * 3, false⟩, ⟨"PBD_SolveArea", 4, B, false⟩,
       ⟨"PBD_Collide", 5, B * 3, false⟩,
       ⟨"PBD_Finalize", 6, B * 3, true⟩] ∧
    (∀ p ∈ PhysicsComputeNode.passSchedule B, 0 < p.elementCount) ∧
    (PhysicsComputeNode.passSchedule B).filter (fun p => p.finalToGraphics) =
      [⟨"PBD_Finalize", 6, B * 3, true⟩] ∧
    physBarrierDst true = BarrierDst.vertexInputAttributeRead ∧
    physBarrierDst false = BarrierDst.computeShaderReadWrite ∧
    (∀ (elementCount maxW : Nat) (force fin : Bool) (fuel : Nat) (l : List Cmd),
      0 < elementCount →
      (elementCount + THREADS_PER_WORKGROUP - 1) / THREADS_PER_WORKGROUP ≤ 65535 →
      (PhysicsComputeNode.dispatchPassCmds elementCount maxW force fin fuel).cmds = some l →
      l.getLast? = some (Cmd.barrier (physBarrierDst fin))) := by
  refine ⟨rfl, ?_, rfl, rfl, rfl, ?_⟩
  · intro p hp
    have h3 : 0 < B * 3 := by omega
    simp only [PhysicsComputeNode.passSchedule] at hp
    fin_cases hp <;> first | exact h3 | exact hB | decide
  · intro elementCount maxW force fin fuel l hE hlim h
    exact dispatchPassCmds_getLast elementCount maxW force fin fuel l hE hlim h

/-- Witness for C3 at `B = 2`: the filter over the schedule keeps exactly the
Finalize pass. -/
theorem physics_pass_sequence_and_barriers_witness :
    (0 : Nat) < 2 ∧
      (PhysicsComputeNode.passSchedule 2).filter (fun p => p.finalToGraphics) =
        [⟨"PBD_Finalize", 6, 2 * 3, true⟩] :=
  ⟨by decide, (physics_pass_sequence_and_barriers 2 (by decide)).2.2.1⟩

/-- Commands recorded by `EntityGraphicsNode::execute`, projected to the
fields the claims are about. -/
inductive GCmd where
  | beginRenderPass
  | setViewport
  | setScissor
  | bindPipeline
  | bindDescriptorSets
  | pushConstants (entityCount : Nat)
  | bindVertexBuffers
  | bindIndexBuffer
  | drawIndexed (indexCount instanceCount : Nat)
  | endRenderPass
deriving Repr, DecidableEq

/-- Collaborator inputs of one `EntityGraphicsNode::execute` call.
`trianglesPerBody` is `SoftBodyConstants::kTrianglesPerBody`, which is
referenced by the source but not defined in the provided
`soft_body_constants.h`, so it stays a parameter here. -/
structure GraphicsExecEnv where
  depsOk : Bool
  entityCount : Nat
  contextOk : Bool
  pipelineOk : Bool
  imageIndex : Nat
  framebufferCount : Nat
  descriptorOk : Bool
  indexCount : Nat
  trianglesPerBody : Nat
deriving Repr, DecidableEq

/-- Result of one `EntityGraphicsNode::execute` call: the commands recorded
and whether `updateUniformBuffer()` was reached. -/
structure GraphicsExecOut where
  cmds : List GCmd
  uniformBufferUpdated : Bool
deriving Repr, DecidableEq

/-- `EntityGraphicsNode::execute` (entity_graphics_node.cpp lines 106-251):
dependency and entity-count guards, context resolution, uniform-buffer
update, pipeline and framebuffer validation, render-pass recording, and the
instanced indexed draw (guarded again by `entityCount > 0`). -/
def EntityGraphicsNode.executeModel (env : GraphicsExecEnv) : GraphicsExecOut :=
  if env.depsOk = false then ⟨[], false⟩
  else if env.entityCount = 0 then ⟨[], false⟩
  else if env.contextOk = false then ⟨[], false⟩
  else if env.pipelineOk = false then ⟨[], true⟩
  else if env.framebufferCount ≤ env.imageIndex then ⟨[], true⟩
  else if env.descriptorOk = false then
    ⟨[GCmd.beginRenderPass, GCmd.setViewport, GCmd.setScissor, GCmd.bindPipeline], true⟩
  else
    ⟨[GCmd.beginRenderPass, GCmd.setViewport, GCmd.setScissor, GCmd.bindPipeline,
      GCmd.bindDescriptorSets, GCmd.pushConstants env.entityCount] ++
     (if 0 < env.entityCount then
        [GCmd.bindVertexBuffers, GCmd.bindIndexBuffer,
         GCmd.drawIndexed env.indexCount (env.entityCount * env.trianglesPerBody)]
      else []) ++ [GCmd.endRenderPass], true⟩

/-- C6. For every frame whose entity/body count reads zero, both compute
nodes' `execute` return before binding a pipeline or recording any
`vkCmdDispatch`, with the push-constant state untouched, and the graphics
node's `execute` returns before updating the uniform buffer or recording any
command (in particular no draw call). -/
theorem zero_entities_execute_noop :
    (∀ (env : EntityExecEnv) (push : EntityPush) (fuel : Nat), env.entityCount = 0 →
      EntityComputeNode.executeModel env push fuel = ⟨false, some [], push⟩) ∧
    (∀ (env : PhysicsExecEnv) (push : PhysicsPush) (fuel : Nat), env.bodyCount = 0 →
      PhysicsComputeNode.executeModel env push fuel = ⟨some [], push⟩) ∧
    (∀ env : GraphicsExecEnv, env.entityCount = 0 →
      EntityGraphicsNode.executeModel env = ⟨[], false⟩) := by
  refine ⟨?_, ?_, ?_⟩
  · intro env push fuel h0
    simp [EntityComputeNode.executeModel, h0]
  · intro env push fuel h0
    simp [PhysicsComputeNode.executeModel, h0]
  · intro env h0
    simp [EntityGraphicsNode.executeModel, h0]

/-- Witness for C6 at entity/body count 0 with otherwise healthy
collaborators. -/
theorem zero_entities_execute_noop_witness :
    EntityComputeNode.executeModel
        ⟨true, 0, 5, true, true, true, ⟨false, ⟨false, 0, false⟩, true⟩, 1024, true⟩
        ⟨0, 0, 0⟩ 2 = ⟨false, some [], ⟨0, 0, 0⟩⟩ ∧
    PhysicsComputeNode.executeModel
        ⟨true, 0, 5, true, true, true, ⟨false, ⟨false, 0, false⟩, true⟩, 1024, true⟩
        ⟨0, 0, 0, 0, 0, 0⟩ 2 = ⟨some [], ⟨0, 0, 0, 0, 0, 0⟩⟩ ∧
    EntityGraphicsNode.executeModel ⟨true, 0, true, true, 0, 3, true, 6, 1⟩ = ⟨[], false⟩ :=
  ⟨zero_entities_execute_noop.1
      ⟨true, 0, 5, true, true, true, ⟨false, ⟨false, 0, false⟩, true⟩, 1024, true⟩ ⟨0, 0, 0⟩ 2 rfl,
   zero_entities_execute_noop.2.1
      ⟨true, 0, 5, true, true, true, ⟨false, ⟨false, 0, false⟩, true⟩, 1024, true⟩
      ⟨0, 0, 0, 0, 0, 0⟩ 2 rfl,
   zero_entities_execute_noop.2.2 ⟨true, 0, true, true, 0, 3, true, 6, 1⟩ rfl⟩

namespace FrameGraph

/-- The two pieces of compiled frame-graph state that `compile` backs up and
(on some paths) restores: `executionOrder_` and `compiled_`. -/
structure GraphState where
  executionOrder : List Nat
  compiled : Bool
deriving Repr, DecidableEq

/-- Outcomes of the collaborating compiler during one `FrameGraph::compile`
call: `sortResult` is the execution order produced by
`compileWithCycleDetection` (`none` on circular dependencies),
`partialValidNodes` is `attemptPartialCompilation`'s valid-node list when it
reports `hasValidSubgraph`, and `initOk` gives each node's `initializeNode`
result.  `FrameGraphCompiler::backupState`/`restoreState` are modelled from
the spec ("backup/restore of execution order and compiled flag"); the
compiler's translation unit is not among the provided sources. -/
structure CompileEnv where
  initialized : Bool
  sortResult : Option (List Nat)
  partialValidNodes : Option (List Nat)
  initOk : Nat → Bool

/-- `FrameGraph::compile` (frame_graph.cpp lines 133-237), acting on the
backed-up state pair.  The full-compilation path's init-failure return (lines
226-229) does not call `restoreState`; both failure returns of the
cycle-fallback path (lines 202 and 213) do. -/
def compileModel (env : CompileEnv) (st : GraphState) : Bool × GraphState :=
  if env.initialized = false then (false, st)
  else
    let backup := st
    match env.sortResult with
    | none =>
      match env.partialValidNodes with
      | some validNodes =>
        if validNodes.all env.initOk then (true, ⟨validNodes, true⟩)
        else (false, backup)
      | none => (false, backup)
    | some order =>
      if order.all env.initOk then (true, ⟨order, true⟩)
      else (false, ⟨order, false⟩)

end FrameGraph

/-- C4 (code bug). With a previously compiled state (execution order `[42]`,
compiled flag set), recompiling through the full-compilation path with sorted
order `[1]` where node 1's `initializeNode` fails makes `compile` return
`false` — but the resulting state keeps the new order `[1]` with the compiled
flag cleared instead of being rolled back to the backed-up prior state: the
full path's init-failure return skips `restoreState`, contradicting the
backup taken "for transactional compilation" and the restore performed on the
partial-compilation path. -/
theorem compile_full_path_no_rollback_on_init_failure :
    FrameGraph.compileModel ⟨true, some [1], none, fun _ => false⟩ ⟨[42], true⟩ =
      (false, ⟨[1], false⟩) ∧
    (⟨[1], false⟩ : FrameGraph.GraphState) ≠ ⟨[42], true⟩ ∧
    FrameGraph.compileModel ⟨true, none, some [1], fun _ => false⟩ ⟨[42], true⟩ =
      (false, ⟨[42], true⟩) := by
  refine ⟨rfl, ?_, rfl⟩
  decide

namespace FrameGraph

/-- Result of one `FrameGraph::execute` call: the node ids whose `execute`
ran, whether the command buffers that were begun were also ended, and whether
the timeout path (`handleExecutionTimeout`) was taken. -/
structure ExecOut where
  executedNodes : List Nat
  commandBuffersEnded : Bool
  timedOut : Bool
deriving Repr, DecidableEq

/-- The node loop of `FrameGraph::executeWithTimeoutMonitoring`
(frame_graph.cpp lines 390-448).  `health k` is the result of the `k`-th
`isGPUHealthy()` call of this frame; each node consumes one pre-execute check
and one post-execute check.  Returns whether the loop completed and the nodes
whose `execute` was invoked. -/
def goTimeout (health : Nat → Bool) : List Nat → Nat → List Nat → Bool × List Nat
  | [], _, executed => (true, executed)
  | n :: rest, checkIdx, executed =>
    if health checkIdx = false then (false, executed)
    else if health (checkIdx + 1) = false then (false, executed ++ [n])
    else goTimeout health rest (checkIdx + 2) (executed ++ [n])

/-- `FrameGraph::execute` (frame_graph.cpp lines 240-296), projected to the
per-frame node loop: after the compiled-flag guard and beginning the needed
command buffers, run the timeout-monitored loop when a detector is attached
(ending the command buffers and calling `handleExecutionTimeout` when it
aborts) or `executeNodesInOrder` otherwise; the command buffers that were
begun are ended on every path that begins them. -/
def executeModel (health : Nat → Bool) (executionOrder : List Nat)
    (compiled hasTimeoutDetector : Bool) : ExecOut :=
  if compiled = false then ⟨[], false, false⟩
  else if hasTimeoutDetector then
    let r := goTimeout health executionOrder 0 []
    ⟨r.2, true, !r.1⟩
  else ⟨executionOrder, true, false⟩

end FrameGraph

lemma goTimeout_pre (health : Nat → Bool) :
    ∀ (K : Nat) (rest : List Nat) (k : Nat) (acc : List Nat), K < rest.length →
      (∀ j, j < 2 * K → health (k + j) = true) → health (k + 2 * K) = false →
      FrameGraph.goTimeout health rest k acc = (false, acc ++ rest.take K) := by
  intro K
  induction K with
  | zero =>
    intro rest k acc hlen hpre hfail
    match rest, hlen with
    | n :: rest, _ =>
      rw [FrameGraph.goTimeout, if_pos (by simpa using hfail)]
      simp
  | succ K ih =>
    intro rest k acc hlen hpre hfail
    match rest, hlen with
    | n :: rest, hlen =>
      have h0 : health k = true := by simpa using hpre 0 (by omega)
      have h1 : health (k + 1) = true := hpre 1 (by omega)
      rw [FrameGraph.goTimeout, if_neg (by simp [h0]), if_neg (by simp [h1])]
      have hrec := ih rest (k + 2) (acc ++ [n]) (by simpa using hlen)
        (fun j hj => by
          have := hpre (j + 2) (by omega)
          simpa [Nat.add_assoc, Nat.add_comm, Nat.add_left_comm] using this)
        (by
          have : k + 2 + 2 * K = k + 2 * (K + 1) := by ring
          rw [this]
          exact hfail)
      rw [hrec]
      simp [List.take_succ_cons]

lemma goTimeout_post (health : Nat → Bool) :
    ∀ (K : Nat) (rest : List Nat) (k : Nat) (acc : List Nat), K < rest.length →
      (∀ j, j < 2 * K + 1 → health (k + j) = true) → health (k + (2 * K + 1)) = false →
      FrameGraph.goTimeout health rest k acc = (false, acc ++ rest.take (K + 1)) := by
  intro K
  induction K with
  | zero =>
    intro rest k acc hlen hpre hfail
    match rest, hlen with
    | n :: rest, _ =>
      have h0 : health k = true := by simpa using hpre 0 (by omega)
      rw [FrameGraph.goTimeout, if_neg (by simp [h0]), if_pos (by simpa using hfail)]
      simp [List.take_succ_cons]
  | succ K ih =>
    intro rest k acc hlen hpre hfail
    match rest, hlen with
    | n :: rest, hlen =>
      have h0 : health k = true := by simpa using hpre 0 (by omega)
      have h1 : health (k + 1) = true := hpre 1 (by omega)
      rw [FrameGraph.goTimeout, if_neg (by simp [h0]), if_neg (by simp [h1])]
      have hrec := ih rest (k + 2) (acc ++ [n]) (by simpa using hlen)
        (fun j hj => by
          have := hpre (j + 2) (by omega)
          simpa [Nat.add_assoc, Nat.add_comm, Nat.add_left_comm] using this)
        (by
          have : k + 2 + (2 * K + 1) = k + (2 * (K + 1) + 1) := by ring
          rw [this]
          exact hfail)
      rw [hrec]
      simp [List.take_succ_cons]

/-- C5. In a compiled frame graph with a timeout detector, if the detector
reports the GPU unhealthy at the pre-execute check of the node at position
`K` of the execution order (first conjunct), or at the post-execute check
right after the node at position `K` (second conjunct; with the claim's
indexing, after node `K-1`), then that frame executes exactly the nodes
before the failing point (`take K`, respectively `take (K+1)`), no later
node's `execute` is called, the frame is flagged as timed out, and the
command buffers that were begun are ended before `execute` returns. -/
theorem gpu_unhealthy_aborts_remaining_nodes (health : Nat → Bool) (order : List Nat)
    (K : Nat) (hK : K < order.length) :
    ((∀ j, j < 2 * K → health j = true) → health (2 * K) = false →
      FrameGraph.executeModel health order true true = ⟨order.take K, true, true⟩) ∧
    ((∀ j, j < 2 * K + 1 → health j = true) → health (2 * K + 1) = false →
      FrameGraph.executeModel health order true true = ⟨order.take (K + 1), true, true⟩) := by
  constructor
  · intro hpre hfail
    rw [FrameGraph.executeModel]
    have h := goTimeout_pre health K order 0 [] hK
      (fun j hj => by simpa using hpre j hj) (by simpa using hfail)
    simp [h]
  · intro hpre hfail
    rw [FrameGraph.executeModel]
    have h := goTimeout_post health K order 0 [] hK
      (fun j hj => by simpa using hpre j hj) (by simpa using hfail)
    simp [h]

/-- Witness for C5: order `[10, 20, 30]`, health checks turning false at check
index 4 (the pre-check of position `K = 2`): nodes 10 and 20 execute, node 30
does not, buffers are still ended. -/
theorem gpu_unhealthy_aborts_remaining_nodes_witness :
    FrameGraph.executeModel (fun j => decide (j < 4)) [10, 20, 30] true true =
      ⟨[10, 20], true, true⟩ :=
  (gpu_unhealthy_aborts_remaining_nodes (fun j => decide (j < 4)) [10, 20, 30] 2
    (by decide)).1 (fun j hj => by simp [hj]) (by decide)

/-- `FrameStateManager::FrameState`: per frame-in-flight slot, whether the
compute and graphics queues were used the last time the slot was active. -/
structure FrameState where
  computeUsed : Bool
  graphicsUsed : Bool
deriving Repr, DecidableEq

/-- Modelled from the spec: `VulkanSync` (with `getComputeFence(i)` and
`getInFlightFence(i)`) is a collaborator whose translation unit is not among
the provided sources; per spec section 5 each frame-in-flight slot has its own
compute fence and graphics in-flight fence, so fences are identified by kind
and slot index. -/
inductive Fence where
  | compute (frameIndex : Nat)
  | inFlight (frameIndex : Nat)
deriving Repr, DecidableEq

namespace FrameStateManager

/-- `FrameStateManager::updateFrameState` (frame_state_manager.cpp lines
20-25): out-of-range indices are ignored. -/
def updateFrameState (frameStates : List FrameState) (frameIndex : Nat)
    (computeUsed graphicsUsed : Bool) : List FrameState :=
  if frameStates.length ≤ frameIndex then frameStates
  else frameStates.set frameIndex ⟨computeUsed, graphicsUsed⟩

/-- `FrameStateManager::getFencesToWait` (frame_state_manager.cpp lines
37-57): empty for out-of-range indices or a null sync object; otherwise the
slot's compute fence when `computeUsed` is set, then the graphics in-flight
fence when `graphicsUsed` is set. -/
def getFencesToWait (frameStates : List FrameState) (frameIndex : Nat)
    (syncPresent : Bool) : List Fence :=
  if frameStates.length ≤ frameIndex ∨ syncPresent = false then []
  else
    match frameStates[frameIndex]? with
    | none => []
    | some slotState =>
      (if slotState.computeUsed then [Fence.compute frameIndex] else []) ++
      (if slotState.graphicsUsed then [Fence.inFlight frameIndex] else [])

end FrameStateManager

/-- C7. For every in-range frame-in-flight slot index, after recording the
slot's usage with `updateFrameState`, the list returned by `getFencesToWait`
contains the slot's compute fence if and only if `computeUsed` was set, and
contains the graphics in-flight fence if and only if `graphicsUsed` was set;
in particular a slot whose last use cleared `computeUsed` does not wait on a
compute fence. -/
theorem fences_to_wait_match_usage_flags (frameStates : List FrameState)
    (frameIndex : Nat) (c g : Bool) (h : frameIndex < frameStates.length) :
    (Fence.compute frameIndex ∈
        FrameStateManager.getFencesToWait
          (FrameStateManager.updateFrameState frameStates frameIndex c g) frameIndex true
      ↔ c = true) ∧
    (Fence.inFlight frameIndex ∈
        FrameStateManager.getFencesToWait
          (FrameStateManager.updateFrameState frameStates frameIndex c g) frameIndex true
      ↔ g = true) := by
  have hupd : FrameStateManager.updateFrameState frameStates frameIndex c g =
      frameStates.set frameIndex ⟨c, g⟩ := by
    rw [FrameStateManager.updateFrameState, if_neg (by omega)]
  have hget : (frameStates.set frameIndex (⟨c, g⟩ : FrameState))[frameIndex]? =
      some ⟨c, g⟩ := List.getElem?_set_eq_of_lt _ h
  rw [hupd, FrameStateManager.getFencesToWait,
    if_neg (by simp [List.length_set]; omega), hget]
  cases c <;> cases g <;> simp

/-- Witness for C7: two slots, slot 1 recorded as graphics-only — its wait
list contains the in-flight fence but not the compute fence. -/
theorem fences_to_wait_match_usage_flags_witness :
    (Fence.compute 1 ∈
        FrameStateManager.getFencesToWait
          (FrameStateManager.updateFrameState [⟨true, true⟩, ⟨true, true⟩] 1 false true)
          1 true
      ↔ false = true) ∧
    (Fence.inFlight 1 ∈
        FrameStateManager.getFencesToWait
          (FrameStateManager.updateFrameState [⟨true, true⟩, ⟨true, true⟩] 1 false true)
          1 true
      ↔ true = true) :=
  fences_to_wait_match_usage_flags [⟨true, true⟩, ⟨true, true⟩] 1 false true (by decide)

/-- `ResourceAccess` from frame_graph_types (as used by the nodes). -/
inductive ResourceAccess where
  | Read
  | Write
  | ReadWrite
deriving Repr, DecidableEq

/-- `PipelineStage` values used by the nodes' dependency declarations. -/
inductive PipelineStage where
  | ComputeShader
  | VertexShader
deriving Repr, DecidableEq

/-- `ResourceDependency`: resource id, access mode, pipeline stage. -/
structure ResourceDependency where
  resourceId : Nat
  access : ResourceAccess
  stage : PipelineStage
deriving Repr, DecidableEq

/-- The buffer-id fields of `PhysicsComputeNode` that its
`getInputs`/`getOutputs` read (physics_compute_node.cpp lines 45-72). -/
structure PhysicsComputeNode.Data where
  velocityBufferId : Nat
  runtimeStateBufferId : Nat
  positionBufferId : Nat
  currentPositionBufferId : Nat
  spatialMapBufferId : Nat
  controlParamsBufferId : Nat
  spatialNextBufferId : Nat
  particleVelocityBufferId : Nat
  particleInvMassBufferId : Nat
  particleBodyBufferId : Nat
  bodyDataBufferId : Nat
  bodyParamsBufferId : Nat
  distanceConstraintBufferId : Nat
deriving Repr, DecidableEq

/-- `PhysicsComputeNode::getInputs` (physics_compute_node.cpp lines 45-61). -/
def PhysicsComputeNode.getInputs (data : PhysicsComputeNode.Data) : List ResourceDependency :=
  [⟨data.velocityBufferId, ResourceAccess.ReadWrite, PipelineStage.ComputeShader⟩,
   ⟨data.runtimeStateBufferId, ResourceAccess.ReadWrite, PipelineStage.ComputeShader⟩,
   ⟨data.positionBufferId, ResourceAccess.ReadWrite, PipelineStage.ComputeShader⟩,
   ⟨data.currentPositionBufferId, ResourceAccess.ReadWrite, PipelineStage.ComputeShader⟩,
   ⟨data.spatialMapBufferId, ResourceAccess.ReadWrite, PipelineStage.ComputeShader⟩,
   ⟨data.controlParamsBufferId, ResourceAccess.Read, PipelineStage.ComputeShader⟩,
   ⟨data.spatialNextBufferId, ResourceAccess.ReadWrite, PipelineStage.ComputeShader⟩,
   ⟨data.particleVelocityBufferId, ResourceAccess.ReadWrite, PipelineStage.ComputeShader⟩,
   ⟨data.particleInvMassBufferId, ResourceAccess.Read, PipelineStage.ComputeShader⟩,
   ⟨data.particleBodyBufferId, ResourceAccess.Read, PipelineStage.ComputeShader⟩,
   ⟨data.bodyDataBufferId, ResourceAccess.Read, PipelineStage.ComputeShader⟩,
   ⟨data.bodyParamsBufferId, ResourceAccess.Read, PipelineStage.ComputeShader⟩,
   ⟨data.distanceConstraintBufferId, ResourceAccess.Read, PipelineStage.ComputeShader⟩]

/-- `PhysicsComputeNode::getOutputs` (physics_compute_node.cpp lines 63-72). -/
def PhysicsComputeNode.getOutputs (data : PhysicsComputeNode.Data) : List ResourceDependency :=
  [⟨data.velocityBufferId, ResourceAccess.Write, PipelineStage.ComputeShader⟩,
   ⟨data.runtimeStateBufferId, ResourceAccess.Write, PipelineStage.ComputeShader⟩,
   ⟨data.positionBufferId, ResourceAccess.Write, PipelineStage.ComputeShader⟩,
   ⟨data.currentPositionBufferId, ResourceAccess.Write, PipelineStage.ComputeShader⟩,
   ⟨data.spatialMapBufferId, ResourceAccess.Write, PipelineStage.ComputeShader⟩,
   ⟨data.particleVelocityBufferId, ResourceAccess.Write, PipelineStage.ComputeShader⟩]

/-- The buffer-id fields of `EntityComputeNode` (entity_compute_node.h lines
62-67). -/
structure EntityComputeNode.Ids where
  velocityBufferId : Nat
  movementParamsBufferId : Nat
  runtimeStateBufferId : Nat
  positionBufferId : Nat
  currentPositionBufferId : Nat
  targetPositionBufferId : Nat
deriving Repr, DecidableEq

/-- `EntityComputeNode::getInputs` (entity_compute_node.cpp lines 63-69). -/
def EntityComputeNode.getInputs (ids : EntityComputeNode.Ids) : List ResourceDependency :=
  [⟨ids.velocityBufferId, ResourceAccess.Read, PipelineStage.ComputeShader⟩,
   ⟨ids.movementParamsBufferId, ResourceAccess.Read, PipelineStage.ComputeShader⟩,
   ⟨ids.runtimeStateBufferId, ResourceAccess.ReadWrite, PipelineStage.ComputeShader⟩]

/-- `EntityComputeNode::getOutputs` (entity_compute_node.cpp lines 71-76). -/
def EntityComputeNode.getOutputs (ids : EntityComputeNode.Ids) : List ResourceDependency :=
  [⟨ids.velocityBufferId, ResourceAccess.Write, PipelineStage.ComputeShader⟩,
   ⟨ids.runtimeStateBufferId, ResourceAccess.Write, PipelineStage.ComputeShader⟩]

/-- Resource ids a dependency list declares with Write or ReadWrite access. -/
def writtenIds (deps : List ResourceDependency) : List Nat :=
  (deps.filter (fun d =>
    decide (d.access = ResourceAccess.Write) || decide (d.access = ResourceAccess.ReadWrite))).map
    ResourceDependency.resourceId

/-- C8 (code bug).  With pairwise-distinct buffer ids `1..13`, the physics
node declares `spatialNextBufferId` (= 7) with ReadWrite access in
`getInputs()` but `getOutputs()` omits it, so a buffer the node writes is
missing from the output dependency list the frame graph's barrier computation
consumes; the movement node, by contrast, does list every Write/ReadWrite
input id in its outputs. -/
theorem physics_outputs_omit_spatial_next :
    (7 : Nat) ∈ writtenIds (PhysicsComputeNode.getInputs
        ⟨1, 2, 3, 4, 5, 6, 7, 8, 9, 10, 11, 12, 13⟩) ∧
    (7 : Nat) ∉ (PhysicsComputeNode.getOutputs
        ⟨1, 2, 3, 4, 5, 6, 7, 8, 9, 10, 11, 12, 13⟩).map ResourceDependency.resourceId ∧
    (∀ i ∈ writtenIds (EntityComputeNode.getInputs ⟨1, 2, 3, 4, 5, 6⟩),
      i ∈ (EntityComputeNode.getOutputs ⟨1, 2, 3, 4, 5, 6⟩).map
        ResourceDependency.resourceId) := by
  decide

/-- Scalar types appearing in the push-constant structs. -/
inductive ScalarType where
  | f32
  | u32
deriving Repr, DecidableEq

/-- One field of a push-constant struct. -/
structure PushField where
  name : String
  ty : ScalarType
deriving Repr, DecidableEq

/-- Byte size of a push-constant scalar (both are 4-byte). -/
def scalarByteSize : ScalarType → Nat
  | ScalarType.f32 => 4
  | ScalarType.u32 => 4

/-- Total byte size of a push-constant struct; every member is 4-byte-aligned
so `sizeof` is the plain sum with no padding holes. -/
def layoutByteSize (l : List PushField) : Nat :=
  (l.map (fun f => scalarByteSize f.ty)).sum

/-- `EntityComputeNode::ComputePushConstants` (entity_compute_node.h lines
86-93): `float time; float deltaTime; uint32_t entityCount; uint32_t frame;
uint32_t entityOffset; uint32_t padding[3];`. -/
def EntityComputeNode.ComputePushConstantsLayout : List PushField :=
  [⟨"time", ScalarType.f32⟩, ⟨"deltaTime", ScalarType.f32⟩,
   ⟨"entityCount", ScalarType.u32⟩, ⟨"frame", ScalarType.u32⟩,
   ⟨"entityOffset", ScalarType.u32⟩,
   ⟨"padding0", ScalarType.u32⟩, ⟨"padding1", ScalarType.u32⟩, ⟨"padding2", ScalarType.u32⟩]

/-- `PhysicsComputeNode::FEMPushConstants` (physics_compute_node.h lines
92-102): `float time; float deltaTime; uint32_t bodyCount; uint32_t
nodeCount; uint32_t triangleCount; uint32_t frame; uint32_t elementOffset;
uint32_t mode; uint32_t padding;`. -/
def PhysicsComputeNode.FEMPushConstantsLayout : List PushField :=
  [⟨"time", ScalarType.f32⟩, ⟨"deltaTime", ScalarType.f32⟩,
   ⟨"bodyCount", ScalarType.u32⟩, ⟨"nodeCount", ScalarType.u32⟩,
   ⟨"triangleCount", ScalarType.u32⟩, ⟨"frame", ScalarType.u32⟩,
   ⟨"elementOffset", ScalarType.u32⟩, ⟨"mode", ScalarType.u32⟩,
   ⟨"padding", ScalarType.u32⟩]

/-- C9 counterexample. The physics node's push-constant struct refutes the
claim at the concrete struct `FEMPushConstants`: its total size is 36 bytes,
not a multiple of 16, and the field following `elementOffset` (index 7) is
the non-padding field `mode`. -/
theorem fem_push_constants_not_16_aligned :
    layoutByteSize PhysicsComputeNode.FEMPushConstantsLayout = 36 ∧
    ¬ layoutByteSize PhysicsComputeNode.FEMPushConstantsLayout % 16 = 0 ∧
    PhysicsComputeNode.FEMPushConstantsLayout[7]? = some ⟨"mode", ScalarType.u32⟩ := by
  decide

/-- C9 (amended). `EntityComputeNode::ComputePushConstants` has exactly the
claimed layout — time:f32, deltaTime:f32, entityCount:u32, frame:u32,
entityOffset:u32, followed only by padding (three u32 words) — and its 32-byte
size is a multiple of 16.  The physics node's `FEMPushConstants` is time:f32,
deltaTime:f32, three u32 counts (bodyCount, nodeCount, triangleCount),
frame:u32, elementOffset:u32, followed by a u32 `mode` field and a single u32
padding word; its size is 36 bytes, which is not a multiple of 16. -/
theorem push_constant_layouts :
    EntityComputeNode.ComputePushConstantsLayout[0]? = some ⟨"time", ScalarType.f32⟩ ∧
    EntityComputeNode.ComputePushConstantsLayout[1]? = some ⟨"deltaTime", ScalarType.f32⟩ ∧
    EntityComputeNode.ComputePushConstantsLayout[2]? = some ⟨"entityCount", ScalarType.u32⟩ ∧
    EntityComputeNode.ComputePushConstantsLayout[3]? = some ⟨"frame", ScalarType.u32⟩ ∧
    EntityComputeNode.ComputePushConstantsLayout[4]? = some ⟨"entityOffset", ScalarType.u32⟩ ∧
    EntityComputeNode.ComputePushConstantsLayout.drop 5 =
      [⟨"padding0", ScalarType.u32⟩, ⟨"padding1", ScalarType.u32⟩,
       ⟨"padding2", ScalarType.u32⟩] ∧
    layoutByteSize EntityComputeNode.ComputePushConstantsLayout = 32 ∧
    layoutByteSize EntityComputeNode.ComputePushConstantsLayout % 16 = 0 ∧
    PhysicsComputeNode.FEMPushConstantsLayout =
      [⟨"time", ScalarType.f32⟩, ⟨"deltaTime", ScalarType.f32⟩,
       ⟨"bodyCount", ScalarType.u32⟩, ⟨"nodeCount", ScalarType.u32⟩,
       ⟨"triangleCount", ScalarType.u32⟩, ⟨"frame", ScalarType.u32⟩,
       ⟨"elementOffset", ScalarType.u32⟩, ⟨"mode", ScalarType.u32⟩,
       ⟨"padding", ScalarType.u32⟩] ∧
    layoutByteSize PhysicsComputeNode.FEMPushConstantsLayout = 36 := by
  decide

end Fractalia
